import Mathlib

/-!
Shallow embedding of the CVW OpenOCD debug wrapper scripts
(`bin/openocd_tcl_wrapper.py` and `bin/hw_debug_interface.py`).

Python integers are modelled as `Nat` (all values involved are non-negative);
Python exceptions are modelled with `Except PyErr`; DMI traffic is modelled as
explicit traces of `(address, data)` pairs; the stream of values successively
read from a DMI register by a polling loop is modelled as a `List Nat`
argument (an exhausted list means the loop is still spinning, rendered as
`Option.none`).  Python dictionaries are modelled as association lists looked
up with `List.lookup`; the source tables repeat a few keys with identical
values, so first-match lookup agrees with the dictionary's last-wins
semantics.
-/

/-- Python exceptions raised by the scripts. -/
inductive PyErr where
  /-- `KeyError` from a failed dictionary subscript. -/
  | keyError (key : String)
  /-- `TypeError` from `int + None` (`access_register` with `regno = None`). -/
  | typeError
  /-- `Exception("Error: value passed to write_data ... exceeds XLEN")`. -/
  | valueOutOfRange
  /-- `raise Exception(acerr)` after a nonzero abstract-command error. -/
  | cmdError (msg : String)
  /-- `raise Exception("Error: Hart failed to ...")` assertion failures. -/
  | assertionError (msg : String)
  deriving DecidableEq, Repr

/-- `register_translations` of `openocd_tcl_wrapper.py`: canonical register
name to regno (hex string), entries in source order. -/
def register_translations : List (String × String) :=
  [("FFLAGS", "0x0001"), ("FRM", "0x0002"), ("FCSR", "0x0003"),
   ("MSTATUS", "0x0300"), ("MISA", "0x0301"), ("MEDELEG", "0x0302"),
   ("MIDELEG", "0x0303"), ("MIE", "0x0304"), ("MTVEC", "0x0305"),
   ("MCOUNTEREN", "0x0306"), ("MENVCFG", "0x030A"), ("MSTATUSH", "0x0310"),
   ("MENVCFGH", "0x031A"), ("MCOUNTINHIBIT", "0x0320"), ("MSCRATCH", "0x0340"),
   ("MEPC", "0x0341"), ("MCAUSE", "0x0342"), ("MTVAL", "0x0343"),
   ("MIP", "0x0344"),
   ("PMPCFG0", "0x03A0"), ("PMPCFG1", "0x03A1"), ("PMPCFG2", "0x03A2"),
   ("PMPCFG3", "0x03A3"), ("PMPCFG4", "0x03A4"), ("PMPCFG5", "0x03A5"),
   ("PMPCFG6", "0x03A6"), ("PMPCFG7", "0x03A7"), ("PMPCFG8", "0x03A8"),
   ("PMPCFG9", "0x03A9"), ("PMPCFGA", "0x03AA"), ("PMPCFGB", "0x03AB"),
   ("PMPCFGC", "0x03AC"), ("PMPCFGD", "0x03AD"), ("PMPCFGE", "0x03AE"),
   ("PMPCFGF", "0x03AF"),
   ("PMPADDR0", "0x03B0"), ("PMPADDR1", "0x03B1"), ("PMPADDR2", "0x03B2"),
   ("PMPADDR3", "0x03B3"), ("PMPADDR4", "0x03B4"), ("PMPADDR5", "0x03B5"),
   ("PMPADDR6", "0x03B6"), ("PMPADDR7", "0x03B7"), ("PMPADDR8", "0x03B8"),
   ("PMPADDR9", "0x03B9"), ("PMPADDRA", "0x03BA"), ("PMPADDRB", "0x03BB"),
   ("PMPADDRC", "0x03BC"), ("PMPADDRD", "0x03BD"), ("PMPADDRE", "0x03BE"),
   ("PMPADDRF", "0x03BF"),
   ("PMPADDR10", "0x03C0"), ("PMPADDR11", "0x03C1"), ("PMPADDR12", "0x03C2"),
   ("PMPADDR13", "0x03C3"), ("PMPADDR14", "0x03C4"), ("PMPADDR15", "0x03C5"),
   ("PMPADDR16", "0x03C6"), ("PMPADDR17", "0x03C7"), ("PMPADDR18", "0x03C8"),
   ("PMPADDR19", "0x03C9"), ("PMPADDR1A", "0x03CA"), ("PMPADDR1B", "0x03CB"),
   ("PMPADDR1C", "0x03CC"), ("PMPADDR1D", "0x03CD"), ("PMPADDR1E", "0x03CE"),
   ("PMPADDR1F", "0x03CF"),
   ("PMPADDR20", "0x03D0"), ("PMPADDR21", "0x03D1"), ("PMPADDR22", "0x03D2"),
   ("PMPADDR23", "0x03D3"), ("PMPADDR24", "0x03D4"), ("PMPADDR25", "0x03D5"),
   ("PMPADDR26", "0x03D6"), ("PMPADDR27", "0x03D7"), ("PMPADDR28", "0x03D8"),
   ("PMPADDR29", "0x03D9"), ("PMPADDR2A", "0x03DA"), ("PMPADDR2B", "0x03DB"),
   ("PMPADDR2C", "0x03DC"), ("PMPADDR2D", "0x03DD"), ("PMPADDR2E", "0x03DE"),
   ("PMPADDR2F", "0x03DF"),
   ("PMPADDR30", "0x03E0"), ("PMPADDR31", "0x03E1"), ("PMPADDR32", "0x03E2"),
   ("PMPADDR33", "0x03E3"), ("PMPADDR34", "0x03E4"), ("PMPADDR35", "0x03E5"),
   ("PMPADDR36", "0x03E6"), ("PMPADDR37", "0x03E7"), ("PMPADDR38", "0x03E8"),
   ("PMPADDR39", "0x03E9"), ("PMPADDR3A", "0x03EA"), ("PMPADDR3B", "0x03EB"),
   ("PMPADDR3C", "0x03EC"), ("PMPADDR3D", "0x03ED"), ("PMPADDR3E", "0x03EE"),
   ("PMPADDR3F", "0x03EF"),
   ("TSELECT", "0x07A0"), ("TDATA1", "0x07A1"), ("TDATA2", "0x07A2"),
   ("TDATA3", "0x07A3"), ("DCSR", "0x07B0"), ("DPC", "0x07B1"),
   ("MVENDORID", "0x0F11"), ("MARCHID", "0x0F12"), ("MIMPID", "0x0F13"),
   ("MHARTID", "0x0F14"), ("MCONFIGPTR", "0x0F15"),
   ("SIP", "0x0144"), ("MIP", "0x0344"),
   ("MHPMEVENTBASE", "0x0320"), ("MHPMCOUNTERBASE", "0x0B00"),
   ("MHPMCOUNTERHBASE", "0x0B80"), ("HPMCOUNTERBASE", "0x0C00"),
   ("TIME", "0x0C01"), ("HPMCOUNTERHBASE", "0x0C80"), ("TIMEH", "0x0C81"),
   ("SSTATUS", "0x0100"), ("SIE", "0x0104"), ("STVEC", "0x0105"),
   ("SCOUNTEREN", "0x0106"), ("SENVCFG", "0x010A"), ("SSCRATCH", "0x0140"),
   ("SEPC", "0x0141"), ("SCAUSE", "0x0142"), ("STVAL", "0x0143"),
   ("SIP", "0x0144"), ("STIMECMP", "0x014D"), ("STIMECMPH", "0x015D"),
   ("SATP", "0x0180"), ("SIE", "0x0104"), ("SIP", "0x0144"),
   ("MIE", "0x0304"), ("MIP", "0x0344"),
   ("TRAPM", "0xC000"), ("PCM", "0xC001"), ("INSTRM", "0xC002"),
   ("MEMRWM", "0xC003"), ("INSTRVALIDM", "0xC004"), ("WRITEDATAM", "0xC005"),
   ("IEUADRM", "0xC006"), ("READDATAM", "0xC007"),
   ("X0", "0x1000"), ("X1", "0x1001"), ("X2", "0x1002"), ("X3", "0x1003"),
   ("X4", "0x1004"), ("X5", "0x1005"), ("X6", "0x1006"), ("X7", "0x1007"),
   ("X8", "0x1008"), ("X9", "0x1009"), ("X10", "0x100A"), ("X11", "0x100B"),
   ("X12", "0x100C"), ("X13", "0x100D"), ("X14", "0x100E"), ("X15", "0x100F"),
   ("X16", "0x1010"), ("X17", "0x1011"), ("X18", "0x1012"), ("X19", "0x1013"),
   ("X20", "0x1014"), ("X21", "0x1015"), ("X22", "0x1016"), ("X23", "0x1017"),
   ("X24", "0x1018"), ("X25", "0x1019"), ("X26", "0x101A"), ("X27", "0x101B"),
   ("X28", "0x101C"), ("X29", "0x101D"), ("X30", "0x101E"), ("X31", "0x101F"),
   ("F0", "0x1020"), ("F1", "0x1021"), ("F2", "0x1022"), ("F3", "0x1023"),
   ("F4", "0x1024"), ("F5", "0x1025"), ("F6", "0x1026"), ("F7", "0x1027"),
   ("F8", "0x1028"), ("F9", "0x1029"), ("F10", "0x102A"), ("F11", "0x102B"),
   ("F12", "0x102C"), ("F13", "0x102D"), ("F14", "0x102E"), ("F15", "0x102F"),
   ("F16", "0x1030"), ("F17", "0x1031"), ("F18", "0x1032"), ("F19", "0x1033"),
   ("F20", "0x1034"), ("F21", "0x1035"), ("F22", "0x1036"), ("F23", "0x1037"),
   ("F24", "0x1038"), ("F25", "0x1039"), ("F26", "0x103A"), ("F27", "0x103B"),
   ("F28", "0x103C"), ("F29", "0x103D"), ("F30", "0x103E"), ("F31", "0x103F")]

/-- The literal `abi_translations` dictionary of `openocd_tcl_wrapper.py`
before the reversed entries are merged in. -/
def abi_translations_base : List (String × String) :=
  [("x0", "zero"), ("x1", "ra"), ("x2", "sp"), ("x3", "gp"), ("x4", "tp"),
   ("x5", "t0"), ("x6", "t1"), ("x7", "t2"), ("x8", "s0/fp"), ("x9", "s1"),
   ("x10", "a0"), ("x11", "a1"), ("x12", "a2"), ("x13", "a3"), ("x14", "a4"),
   ("x15", "a5"), ("x16", "a6"), ("x17", "a7"), ("x18", "s2"), ("x19", "s3"),
   ("x20", "s4"), ("x21", "s5"), ("x22", "s6"), ("x23", "s7"), ("x24", "s8"),
   ("x25", "s9"), ("x26", "s10"), ("x27", "s11"), ("x28", "t3"), ("x29", "t4"),
   ("x30", "t5"), ("x31", "t6"),
   ("f0", "ft0"), ("f1", "ft1"), ("f2", "ft2"), ("f3", "ft3"), ("f4", "ft4"),
   ("f5", "ft5"), ("f6", "ft6"), ("f7", "ft7"), ("f8", "fs0"), ("f9", "fs1"),
   ("f10", "fa0"), ("f11", "fa1"), ("f12", "fa2"), ("f13", "fa3"),
   ("f14", "fa4"), ("f15", "fa5"), ("f16", "fa6"), ("f17", "fa7"),
   ("f18", "fs2"), ("f19", "fs3"), ("f20", "fs4"), ("f21", "fs5"),
   ("f22", "fs6"), ("f23", "fs7"), ("f24", "fs8"), ("f25", "fs9"),
   ("f26", "fs10"), ("f27", "fs11"), ("f28", "ft8"), ("f29", "ft9"),
   ("f30", "ft10"), ("f31", "ft11")]

/-- `abi_translations |= dict(map(reversed, abi_translations.items()))`:
the table merged with its own reversed pairs (keys of the two halves are
disjoint, so association-list lookup agrees with the dictionary). -/
def abi_translations : List (String × String) :=
  abi_translations_base ++ abi_translations_base.map (fun p => (p.2, p.1))

/-- Value of a single hexadecimal digit character. -/
def hexVal (c : Char) : Nat :=
  if c.isDigit then c.toNat - 48
  else if 97 ≤ c.toNat ∧ c.toNat ≤ 102 then c.toNat - 97 + 10
  else if 65 ≤ c.toNat ∧ c.toNat ≤ 70 then c.toNat - 65 + 10
  else 0

/-- Python `int(s, 16)` on the well-formed hex strings stored in the tables
(an optional `0x` prefix followed by hex digits). -/
def intFromHex (s : String) : Nat :=
  let cs := match s.toList with
    | '0' :: 'x' :: rest => rest
    | l => l
  cs.foldl (fun acc c => 16 * acc + hexVal c) 0

/-- `translate_regno` of `openocd_tcl_wrapper.py`.  Canonical lookup first,
then ABI-alias lookup; the alias branch subscripts `register_translations`
with the translated name, which raises `KeyError` when absent; a name found
in neither table returns Python `None`, modelled as `Except.ok none`. -/
def translate_regno (register : String) : Except PyErr (Option Nat) :=
  match register_translations.lookup register with
  | some v => .ok (some (intFromHex v))
  | none =>
    match abi_translations.lookup register with
    | some canonical =>
      match register_translations.lookup canonical with
      | some v => .ok (some (intFromHex v))
      | none => .error (.keyError canonical)
    | none => .ok none

/-- `cmderr_translations` (3.14.6): abstract-command CmdErr decoding.  The
Python dictionary has keys 0 through 7; the decoded field is 3 bits wide, so
the catch-all branch is unreachable. -/
def cmderr_translations (k : Nat) : Option String :=
  match k with
  | 0 => none
  | 1 => some "busy"
  | 2 => some "not supported"
  | 3 => some "exception"
  | 4 => some "halt/resume"
  | 5 => some "bus"
  | 6 => some "reserved"
  | 7 => some "other"
  | _ => none

/-- Busy bit of an `abstractcs` status word: `bool((abstractcs & 0x1000) >> 12)`. -/
def busyBit (st : Nat) : Bool := (st &&& 0x1000) >>> 12 != 0

/-- CmdErr field of an `abstractcs` status word: `(abstractcs & 0x700) >> 8`. -/
def cmderrField (st : Nat) : Nat := (st &&& 0x700) >>> 8

/-- The poll loop of `check_abstrcmderr` / `check_absrtcmderr`: re-read the
status register (sleeping in between) while the Busy bit is set; the argument
lists the successive values read from `abstractcs` (address 0x16). -/
def pollStatus : List Nat → Option Nat
  | [] => none
  | st :: rest => if busyBit st then pollStatus rest else some st

/-- `check_abstrcmderr` of `openocd_tcl_wrapper.py` (identical logic to
`check_absrtcmderr` of `hw_debug_interface.py`): poll until Busy clears, then
decode CmdErr from that final read.  `none` means the loop is still spinning
after consuming the whole modelled read stream. -/
def check_abstrcmderr (reads : List Nat) : Option (Option String) :=
  (pollStatus reads).map (fun st => cmderr_translations (cmderrField st))

/-- The message-register writes issued by `OpenOCD.write_data` (addresses
0x4 to 0x7, 32-bit slots, least-significant first), in issue order. -/
def write_data_msgwrites (LLEN data : Nat) : List (Nat × Nat) :=
  [(0x4, data &&& 0xffffffff)]
  ++ (if 64 ≤ LLEN then [(0x5, (data >>> 32) &&& 0xffffffff)] else [])
  ++ (if LLEN = 128 then
        [(0x6, (data >>> 64) &&& 0xffffffff), (0x7, (data >>> 96) &&& 0xffffffff)]
      else [])

/-- Apply a list of `(address, value)` DMI writes to a message-register store,
later writes shadowing earlier ones. -/
def applyWrites (ws : List (Nat × Nat)) (s : Nat → Nat) : Nat → Nat :=
  ws.foldl (fun f w => fun a => if a = w.1 then w.2 else f a) s

/-- The value reassembled by `OpenOCD.read_data` from the message registers.
The source concatenates hex strings, most-significant slot prepended last;
every slot holds a 32-bit value, whose `zfill(8)` rendering has exactly eight
hex digits, so prepending a slot's digits multiplies it by `2 ^ 32` per
already-present slot. -/
def read_data_value (LLEN : Nat) (s : Nat → Nat) : Nat :=
  let d0 := s 0x4
  let d1 := if 64 ≤ LLEN then s 0x5 * 2 ^ 32 + d0 else d0
  let d2 := if LLEN = 128 then s 0x6 * 2 ^ 64 + d1 else d1
  if LLEN = 128 then s 0x7 * 2 ^ 96 + d2 else d2

/-- The abstract-command word built by `OpenOCD.access_register` (and, with
`addr_size = XLEN`, by the other two variants): transfer bit 17, aarsize
field `log2(addr_size // 8)` at bit 20, write bit 16, then the regno.
`math.log2` is exact on the powers of two that arise, matching `Nat.log2`. -/
def access_register_data (addr_size : Nat) (write : Bool) (regno : Nat) : Nat :=
  2 ^ 17 + Nat.log2 (addr_size / 8) * 2 ^ 20 + (if write then 2 ^ 16 else 0) + regno

/-- `OpenOCD.write_data`: message-slot writes, register resolution, the
access-register command write (address 0x17), then the status poll.  Returns
the DMI write trace and the outcome (`none` while the poll is spinning).
There is no validation of `data` against `LLEN`; oversized values are simply
masked into the slots. -/
def write_data_ocd (LLEN : Nat) (register : String) (data : Nat)
    (statusReads : List Nat) : List (Nat × Nat) × Option (Except PyErr Unit) :=
  let slots := write_data_msgwrites LLEN data
  match translate_regno register with
  | .error e => (slots, some (.error e))
  | .ok none => (slots, some (.error .typeError))
  | .ok (some regno) =>
    let ws := slots ++ [(0x17, access_register_data LLEN true regno)]
    match check_abstrcmderr statusReads with
    | none => (ws, none)
    | some none => (ws, some (.ok ()))
    | some (some msg) => (ws, some (.error (.cmdError msg)))

/-- `SVF_Generator.write_data`: the guard `data > 0 and math.log2(data) >
self.XLEN` short-circuits on `data > 0` and then compares an IEEE-double
logarithm against XLEN.  That float comparison is not expressible in this
integer embedding (for instance, at `XLEN = 64` it stays false for a small
range of values just above `2 ^ 64`, whose `math.log2` rounds to exactly
64.0), so its outcome is taken as the oracle parameter `log2gt`, with
`log2gt data XLEN` standing for `math.log2(data) > XLEN`.  When the guard
trips, the write is abandoned before any DMI write.  Otherwise slots 0x4
(and 0x5 when `XLEN >= 64`) are written, the register resolved and the
access-register command emitted. -/
def svf_write_data (log2gt : Nat → Nat → Bool) (XLEN : Nat) (register : String)
    (data : Nat) : List (Nat × Nat) × Except PyErr Unit :=
  if 0 < data ∧ log2gt data XLEN = true then ([], .error .valueOutOfRange)
  else
    let slots := [(0x4, data &&& 0xffffffff)]
      ++ (if 64 ≤ XLEN then [(0x5, (data >>> 32) &&& 0xffffffff)] else [])
    match translate_regno register with
    | .error e => (slots, .error e)
    | .ok none => (slots, .error .typeError)
    | .ok (some regno) =>
      (slots ++ [(0x17, access_register_data XLEN true regno)], .ok ())

/-- `register_translations` of `hw_debug_interface.py` (note the different
key format for integer and floating registers, e.g. `"x1 (ra)"`). -/
def hw_register_translations : List (String × String) :=
  [("MISA", "0x0301"),
   ("TRAPM", "0xC000"), ("PCM", "0xC001"), ("INSTRM", "0xC002"),
   ("MEMRWM", "0xC003"), ("INSTRVALIDM", "0xC004"), ("WRITEDATAM", "0xC005"),
   ("IEUADRM", "0xC006"), ("READDATAM", "0xC007"),
   ("x0 (zero)", "0x1000"), ("x1 (ra)", "0x1001"), ("x2 (sp)", "0x1002"),
   ("x3 (gp)", "0x1003"), ("x4 (tp)", "0x1004"), ("x5 (t0)", "0x1005"),
   ("x6 (t1)", "0x1006"), ("x7 (t2)", "0x1007"), ("x8 (s0/fp)", "0x1008"),
   ("x9 (s1)", "0x1009"), ("x10 (a0)", "0x100A"), ("x11 (a1)", "0x100B"),
   ("x12 (a2)", "0x100C"), ("x13 (a3)", "0x100D"), ("x14 (a4)", "0x100E"),
   ("x15 (a5)", "0x100F"), ("x16 (a6)", "0x1010"), ("x17 (a7)", "0x1011"),
   ("x18 (s2)", "0x1012"), ("x19 (s3)", "0x1013"), ("x20 (s4)", "0x1014"),
   ("x21 (s5)", "0x1015"), ("x22 (s6)", "0x1016"), ("x23 (s7)", "0x1017"),
   ("x24 (s8)", "0x1018"), ("x25 (s9)", "0x1019"), ("x26 (s10)", "0x101A"),
   ("x27 (s11)", "0x101B"), ("x28 (t3)", "0x101C"), ("x29 (t4)", "0x101D"),
   ("x30 (t5)", "0x101E"), ("x31 (t6)", "0x101F"),
   ("f0 (ft0)", "0x1020"), ("f1 (ft1)", "0x1021"), ("f2 (ft2)", "0x1022"),
   ("f3 (ft3)", "0x1023"), ("f4 (ft4)", "0x1024"), ("f5 (ft5)", "0x1025"),
   ("f6 (ft6)", "0x1026"), ("f7 (ft7)", "0x1027"), ("f8 (fs0)", "0x1028"),
   ("f9 (fs1)", "0x1029"), ("f10 (fa0)", "0x102A"), ("f11 (fa1)", "0x102B"),
   ("f12 (fa2)", "0x102C"), ("f13 (fa3)", "0x102D"), ("f14 (fa4)", "0x102E"),
   ("f15 (fa5)", "0x102F"), ("f16 (fa6)", "0x1030"), ("f17 (fa7)", "0x1031"),
   ("f18 (fs2)", "0x1032"), ("f19 (fs3)", "0x1033"), ("f20 (fs4)", "0x1034"),
   ("f21 (fs5)", "0x1035"), ("f22 (fs6)", "0x1036"), ("f23 (fs7)", "0x1037"),
   ("f24 (fs8)", "0x1038"), ("f25 (fs9)", "0x1039"), ("f26 (fs10)", "0x103A"),
   ("f27 (fs11)", "0x103B"), ("f28 (ft8)", "0x103C"), ("f29 (ft9)", "0x103D"),
   ("f30 (ft10)", "0x103E"), ("f31 (ft11)", "0x103F")]

/-- `read_data` of `hw_debug_interface.py`: resolve the name by direct
subscript of `hw_register_translations` (raising `KeyError` when absent),
issue the access-register command, reassemble the message slots (`dm` maps a
DMI address to the value a read returns), then poll the status.  `none`
models a poll that is still spinning. -/
def hw_read_data (XLEN : Nat) (dm : Nat → Nat) (register : String)
    (statusReads : List Nat) : Option (Except PyErr Nat) :=
  match hw_register_translations.lookup register with
  | none => some (.error (.keyError register))
  | some _ =>
    let d0 := dm 0x4
    let d1 := if 64 ≤ XLEN then dm 0x5 * 2 ^ 32 + d0 else d0
    let d2 := if XLEN = 128 then dm 0x6 * 2 ^ 64 + d1 else d1
    let d3 := if XLEN = 128 then dm 0x7 * 2 ^ 96 + d2 else d2
    match check_abstrcmderr statusReads with
    | none => none
    | some none => some (.ok d3)
    | some (some msg) => some (.error (.cmdError msg))

/-- The loop body of `dump_GPR`: for each index `i` in turn, read the
register named `"X"` followed by the decimal index; after the read at
`i = 16`, inspect `abstractcs` and, when CmdErr decodes to Exception (3),
clear the error and break out of the loop. -/
def dump_GPR_loop (XLEN : Nat) (dm : Nat → Nat) (statusReads : List Nat) :
    List Nat → List (String × Nat) → Option (Except PyErr (List (String × Nat)))
  | [], acc => some (.ok acc)
  | i :: rest, acc =>
    match hw_read_data XLEN dm ("X" ++ toString i) statusReads with
    | none => none
    | some (.error e) => some (.error e)
    | some (.ok v) =>
      let acc := acc ++ [("X" ++ toString i, v)]
      if i = 16 ∧ cmderrField (dm 0x16) = 3 then some (.ok acc)
      else dump_GPR_loop XLEN dm statusReads rest acc

/-- `dump_GPR` of `hw_debug_interface.py`: `for i in range(1, 32)`. -/
def dump_GPR (XLEN : Nat) (dm : Nat → Nat) (statusReads : List Nat) :
    Option (Except PyErr (List (String × Nat))) :=
  dump_GPR_loop XLEN dm statusReads (List.range' 1 31) []

/-- Step bit of a DCSR value: `(dcsr >> 2) & 0x1`. -/
def step_bit (dcsr : Nat) : Nat := (dcsr >>> 2) &&& 0x1

/-- Python `dcsr &= ~0x4` on a non-negative int clears bit 2; on `Nat`,
`dcsr &&& 4` is the bit-2 contribution, which is subtracted out. -/
def andNot4 (dcsr : Nat) : Nat := dcsr - (dcsr &&& 0x4)

/-- One event of an `OpenOCD.step` run: a raw DMI write, or a
`write_data` / `read_data` call on a named register. -/
inductive TraceEv where
  | dmiWrite (addr data : Nat)
  | regWrite (reg : String) (data : Nat)
  | regRead (reg : String)
  deriving DecidableEq

/-- `OpenOCD.step`, given the DCSR value `dcsr0` returned by the initial
`read_data("DCSR")`: set the step bit and write back only when it was unset,
resume once via dmcontrol (0x10), then clear the step bit and write back. -/
def step_ocd (dcsr0 : Nat) : List TraceEv :=
  let setWrites :=
    if step_bit dcsr0 = 0 then [TraceEv.regWrite "DCSR" (dcsr0 ||| 0x4)] else []
  let dcsr1 := if step_bit dcsr0 = 0 then dcsr0 ||| 0x4 else dcsr0
  [TraceEv.regRead "DCSR"] ++ setWrites
    ++ [TraceEv.dmiWrite 0x10 0x40000001]
    ++ [TraceEv.regWrite "DCSR" (andNot4 dcsr1)]

/-- The successive values an `OpenOCD.step` run writes to DCSR. -/
def step_dcsrWrites (dcsr0 : Nat) : List Nat :=
  (step_ocd dcsr0).filterMap (fun ev =>
    match ev with
    | .regWrite "DCSR" v => some v
    | _ => none)

/-- Scan a character list for an occurrence of `"Failed"`. -/
def hasFailed : List Char → Bool
  | [] => false
  | c :: rest => "Failed".toList.isPrefixOf (c :: rest) || hasFailed rest

/-- Substring test standing for Python `"Failed" in rsp`. -/
def containsFailed (rsp : String) : Bool := hasFailed rsp.toList

/-- `OpenOCD.write_dmi` (automation socket variant): raise when the captured
response contains `"Failed"`. -/
def write_dmi_ocd (rsp : String) : Except String Unit :=
  if containsFailed rsp then .error rsp else .ok ()

/-- `write_dmi` of `hw_debug_interface.py` (interactive telnet variant):
print the response when it contains `"Failed"` and return normally; the
first component lists what was printed. -/
def hw_write_dmi (rsp : String) : List String × Except String Unit :=
  ((if containsFailed rsp then [rsp] else []), .ok ())

/-- The loop of `write_progbuf`: `for idx, instr in enumerate(data):
write_dmi(baseaddr + idx, instr)`. -/
def write_progbuf_go (baseaddr idx : Nat) : List Nat → List (Nat × Nat)
  | [] => []
  | instr :: rest => (baseaddr + idx, instr) :: write_progbuf_go baseaddr (idx + 1) rest

/-- `write_progbuf` (both live and SVF variants): program-buffer slot writes
starting at base address 0x20. -/
def write_progbuf (data : List Nat) : List (Nat × Nat) :=
  write_progbuf_go 0x20 0 data

/-- `exec_progbuf`: write the program-buffer-execute command word
`0x1 << 18` to the abstract-command address 0x17. -/
def exec_progbuf : List (Nat × Nat) := [(0x17, 0x1 <<< 18)]

/-- `OpenOCD.halt`, given the dmstatus value `dmstat` read back after the
HaltReq write: assert HaltReq (0x80000001 to 0x10), check the AllHalted and
AnyHalted bits `(dmstat >> 8) & 0x3`, raise if clear, else deassert HaltReq
(0x1 to 0x10).  Returns the dmcontrol write trace and the outcome. -/
def halt_ocd (dmstat : Nat) : List (Nat × Nat) × Except PyErr Unit :=
  if (dmstat >>> 8) &&& 0x3 = 0 then
    ([(0x10, 0x80000001)], .error (.assertionError "Error: Hart failed to halt"))
  else
    ([(0x10, 0x80000001), (0x10, 0x1)], .ok ())

/-- The raw DMI writes an `OpenOCD.step` run issues (the single resume). -/
def step_dmiWrites (dcsr0 : Nat) : List (Nat × Nat) :=
  (step_ocd dcsr0).filterMap (fun ev =>
    match ev with
    | .dmiWrite a v => some (a, v)
    | _ => none)

set_option maxRecDepth 8000

/- ### Helper lemmas -/

/-- Setting bit 2 on a value whose bit 2 is clear adds 4. -/
theorem lor4_eq_add (d : Nat) (h : d / 4 % 2 = 0) : d ||| 4 = d + 4 := by
  have hm8 : d % 8 < 2 ^ 3 := by omega
  have hd : d = 2 ^ 3 * (d / 8) + d % 8 := by omega
  calc d ||| 4
      = (2 ^ 3 * (d / 8) + d % 8) ||| 4 := by rw [← hd]
    _ = (2 ^ 3 * (d / 8) ||| d % 8) ||| 4 := by rw [Nat.mul_add_lt_is_or hm8]
    _ = 2 ^ 3 * (d / 8) ||| (d % 8 ||| 4) := Nat.lor_assoc _ _ _
    _ = 2 ^ 3 * (d / 8) ||| (4 ||| d % 8) := by rw [Nat.lor_comm (d % 8) 4]
    _ = 2 ^ 3 * (d / 8) ||| (2 ^ 2 * 1 ||| d % 8) := by norm_num
    _ = 2 ^ 3 * (d / 8) ||| (2 ^ 2 * 1 + d % 8) := by
          rw [← Nat.mul_add_lt_is_or (show d % 8 < 2 ^ 2 by omega) 1]
    _ = 2 ^ 3 * (d / 8) + (2 ^ 2 * 1 + d % 8) := by
          rw [← Nat.mul_add_lt_is_or (show 2 ^ 2 * 1 + d % 8 < 2 ^ 3 by omega)]
    _ = d + 4 := by omega

/-- Bit-2 extraction as arithmetic. -/
theorem and4_eq (d : Nat) : d &&& 4 = d / 4 % 2 * 4 := by
  have h := Nat.and_two_pow d 2
  have ht : d.testBit 2 = decide (d / 2 ^ 2 % 2 = 1) := Nat.testBit_to_div_mod
  norm_num at h ht
  rw [h, ht]
  rcases Nat.mod_two_eq_zero_or_one (d / 4) with h2 | h2 <;> simp [h2]

/-- The step bit as arithmetic. -/
theorem step_bit_eq (d : Nat) : step_bit d = d / 4 % 2 := by
  unfold step_bit
  rw [Nat.shiftRight_eq_div_pow, Nat.and_one_is_mod]

/-- The CmdErr field is three bits wide. -/
theorem cmderrField_le (st : Nat) : cmderrField st ≤ 7 := by
  unfold cmderrField
  have h : st &&& 0x700 ≤ 0x700 := Nat.and_le_right
  rw [Nat.shiftRight_eq_div_pow]
  omega

/-- On the 3-bit CmdErr range, only 0 decodes to success. -/
theorem cmderr_none_iff (k : Nat) (hk : k ≤ 7) :
    cmderr_translations k = none ↔ k = 0 := by
  interval_cases k <;> simp [cmderr_translations]

/- ### Claim theorems -/

/-- C4 (code divergence): canonical lookup of `"X5"` resolves to regno
0x1005, and the documented ABI alias `"t0"` does map to `"x5"` in the
bidirectional table; yet `translate_regno` on the alias raises `KeyError`
instead of returning the canonical regno, because the alias table's
lowercase names are absent from `register_translations` (which stores
`"X5"`, not `"x5"`).  Both alias directions fail the same way. -/
theorem translate_regno_alias_keyerror :
    translate_regno "X5" = Except.ok (some 0x1005) ∧
    abi_translations.lookup "t0" = some "x5" ∧
    abi_translations.lookup "x5" = some "t0" ∧
    translate_regno "t0" = Except.error (PyErr.keyError "x5") ∧
    translate_regno "x5" = Except.error (PyErr.keyError "t0") :=
  ⟨rfl, rfl, rfl, rfl, rfl⟩

/-- C5 (code divergence): `dump_GPR` raises `KeyError("X1")` on its very
first iteration — for every XLEN, every debug-module state and every status
read stream — because it reads registers under the names `"X1"`, `"X2"`, …
while the table of `hw_debug_interface.py` stores `"x1 (ra)"`-style keys.
The unimplemented-register scenario is therefore never reached. -/
theorem dump_GPR_raises :
    ∀ (XLEN : Nat) (dm : Nat → Nat) (statusReads : List Nat),
      dump_GPR XLEN dm statusReads = some (Except.error (PyErr.keyError "X1"))
        ∧ hw_register_translations.lookup "X1" = none
        ∧ hw_register_translations.lookup "x1 (ra)" = some "0x1001" :=
  fun _ _ _ => ⟨rfl, rfl, rfl⟩

/-- C7 counterexample: on a response containing the failure indicator, the
interactive telnet variant of `write_dmi` merely prints the response and
returns normally — no error reaches the caller. -/
theorem hw_write_dmi_swallows :
    containsFailed "Failed to execute command" = true ∧
    hw_write_dmi "Failed to execute command" =
      (["Failed to execute command"], Except.ok ()) :=
  ⟨rfl, rfl⟩

/-- C7 (amended): only the automation socket variant propagates an error
when the response contains `"Failed"`; the interactive telnet variant prints
the response and returns normally. -/
theorem write_dmi_failure_propagation (rsp : String) :
    (containsFailed rsp = true → write_dmi_ocd rsp = Except.error rsp) ∧
    (hw_write_dmi rsp).2 = Except.ok () ∧
    (hw_write_dmi rsp).1 = (if containsFailed rsp then [rsp] else []) :=
  ⟨fun h => by simp [write_dmi_ocd, h], rfl, rfl⟩

/-- C7 witness: the amended statement applied to a concrete failing
response. -/
theorem write_dmi_failure_propagation_witness :
    write_dmi_ocd "Failed" = Except.error "Failed" :=
  (write_dmi_failure_propagation "Failed").1 rfl

/-- C8: loading a three-instruction program writes the three words in order
to consecutive program-buffer slots 0x20, 0x21, 0x22, and executing writes
the command word `0x1 << 18` to the abstract-command address 0x17 — a word
with the register-transfer bit 17 clear and bit 18 set. -/
theorem progbuf_three_writes (a b c : Nat) :
    write_progbuf [a, b, c] = [(0x20, a), (0x21, b), (0x22, c)] ∧
    exec_progbuf = [(0x17, 0x1 <<< 18)] ∧
    0x1 <<< 18 = 2 ^ 18 ∧
    Nat.testBit (0x1 <<< 18) 17 = false ∧
    Nat.testBit (0x1 <<< 18) 18 = true :=
  ⟨rfl, rfl, rfl, rfl, rfl⟩

/-- C9: a name found in neither the canonical table nor the ABI-alias table
makes `translate_regno` return Python `None` — a value distinct from every
regno, so the caller can tell resolution failed. -/
theorem translate_regno_unknown (reg : String)
    (h1 : register_translations.lookup reg = none)
    (h2 : abi_translations.lookup reg = none) :
    translate_regno reg = Except.ok none := by
  simp [translate_regno, h1, h2]

/-- C9 witness: a concrete unknown name. -/
theorem translate_regno_unknown_witness :
    translate_regno "QUUX" = Except.ok none :=
  translate_regno_unknown "QUUX" rfl rfl

/-- C10: `halt()` (automation socket variant) issues the deasserting write
of 0x1 to dmcontrol exactly when the status read showed the Halted bits
`(dmstat >> 8) & 0x3` nonzero; when they are clear it raises, leaving
0x80000001 — HaltReq (bit 31) still asserted — as the last dmcontrol
write. -/
theorem halt_ocd_spec (dmstat : Nat) :
    ((0x10, 0x1) ∈ (halt_ocd dmstat).1 ↔ (dmstat >>> 8) &&& 0x3 ≠ 0) ∧
    ((halt_ocd dmstat).2 = Except.ok () ↔ (dmstat >>> 8) &&& 0x3 ≠ 0) ∧
    ((dmstat >>> 8) &&& 0x3 = 0 →
      (halt_ocd dmstat).1 = [(0x10, 0x80000001)] ∧
      (halt_ocd dmstat).2 =
        Except.error (PyErr.assertionError "Error: Hart failed to halt") ∧
      Nat.testBit 0x80000001 31 = true) := by
  by_cases h : (dmstat >>> 8) &&& 0x3 = 0 <;> simp [halt_ocd, h]
  decide

/-- C10 witness: the error path at a concrete all-clear status word. -/
theorem halt_ocd_witness :
    (halt_ocd 0).1 = [(0x10, 0x80000001)] ∧
    (halt_ocd 0).2 =
      Except.error (PyErr.assertionError "Error: Hart failed to halt") ∧
    Nat.testBit 0x80000001 31 = true :=
  (halt_ocd_spec 0).2.2 rfl

/-- C1: for each supported transfer width and every value representable in
it, the message-slot split performed by `write_data` followed by the
most-significant-first reassembly performed by `read_data` restores the
value, over any debug module that returns exactly what was stored in the
message registers. -/
theorem write_read_roundtrip (LLEN v : Nat) (s : Nat → Nat)
    (hL : LLEN = 32 ∨ LLEN = 64 ∨ LLEN = 128) (hv : v < 2 ^ LLEN) :
    read_data_value LLEN (applyWrites (write_data_msgwrites LLEN v) s) = v := by
  have hmask : ∀ x : Nat, x &&& 0xffffffff = x % 2 ^ 32 := by
    intro x
    have h := Nat.and_pow_two_sub_one_eq_mod x 32
    norm_num at h ⊢
    exact h
  rcases hL with h | h | h <;> subst h <;>
    simp only [write_data_msgwrites, read_data_value, applyWrites,
      Nat.shiftRight_eq_div_pow, hmask] <;>
    norm_num <;> omega

/-- C1 witness: a concrete 64-bit round trip. -/
theorem write_read_roundtrip_witness :
    read_data_value 64
      (applyWrites (write_data_msgwrites 64 0x123456789abcdef0) (fun _ => 0)) =
      0x123456789abcdef0 :=
  write_read_roundtrip 64 0x123456789abcdef0 (fun _ => 0)
    (Or.inr (Or.inl rfl)) (by decide)

/-- C2: whenever the busy-poll of `check_abstrcmderr` / `check_absrtcmderr`
settles on a status word, that word has the Busy bit clear, every earlier
status read was busy and was not classified, the returned CommandError is
decoded from bits 8-10 of the settled word, and the result is the success
value exactly when that 3-bit field is zero. -/
theorem check_abstrcmderr_not_busy (reads : List Nat) (st : Nat)
    (h : pollStatus reads = some st) :
    busyBit st = false ∧
    check_abstrcmderr reads = some (cmderr_translations (cmderrField st)) ∧
    (check_abstrcmderr reads = some none ↔ cmderrField st = 0) ∧
    ∃ skipped rest, reads = skipped ++ st :: rest ∧
      ∀ b ∈ skipped, busyBit b = true := by
  have hiff : cmderr_translations (cmderrField st) = none ↔ cmderrField st = 0 :=
    cmderr_none_iff _ (cmderrField_le st)
  induction reads with
  | nil => simp [pollStatus] at h
  | cons a l ih =>
    by_cases hb : busyBit a
    · have h' : pollStatus l = some st := by
        simpa [pollStatus, hb] using h
      obtain ⟨h1, h2, h3, skipped, rest, hsp, hall⟩ := ih h'
      refine ⟨h1, ?_, ?_, a :: skipped, rest, by simp [hsp], ?_⟩
      · simpa [check_abstrcmderr, pollStatus, hb] using h2
      · simpa [check_abstrcmderr, pollStatus, hb] using h3
      · intro b hbmem
        rcases List.mem_cons.mp hbmem with hba | hbs
        · exact hba ▸ hb
        · exact hall b hbs
    · have hst : st = a := by
        have := h
        simp [pollStatus, hb] at this
        exact this.symm
      subst hst
      refine ⟨by simpa using hb, ?_, ?_, [], l, by simp, by simp⟩
      · simp [check_abstrcmderr, pollStatus, hb]
      · simp [check_abstrcmderr, pollStatus, hb, hiff]

/-- C2 witness: two busy reads (0x1000, 0x1300) are skipped and the
CommandError is decoded from the non-busy read 0x300 (field 3, Exception). -/
theorem check_abstrcmderr_witness :
    busyBit 0x300 = false ∧
    check_abstrcmderr [0x1000, 0x1300, 0x300] =
      some (cmderr_translations (cmderrField 0x300)) ∧
    (check_abstrcmderr [0x1000, 0x1300, 0x300] = some none ↔
      cmderrField 0x300 = 0) ∧
    ∃ skipped rest, [0x1000, 0x1300, 0x300] = skipped ++ 0x300 :: rest ∧
      ∀ b ∈ skipped, busyBit b = true :=
  check_abstrcmderr_not_busy [0x1000, 0x1300, 0x300] 0x300 rfl

/-- Every error `translate_regno` itself raises is a `KeyError`. -/
theorem translate_regno_error_is_keyerror (reg : String) (e : PyErr)
    (h : translate_regno reg = Except.error e) : ∃ k, e = PyErr.keyError k := by
  unfold translate_regno at h
  rcases h1 : register_translations.lookup reg with _ | v <;> rw [h1] at h
  case some => simp at h
  case none =>
    rcases h2 : abi_translations.lookup reg with _ | canon <;> rw [h2] at h
    · simp at h
    · rcases h3 : register_translations.lookup canon with _ | v2 <;>
        simp [h3] at h
      exact ⟨canon, h.symm⟩

/-- C3 counterexample: the OpenOCD variant of `write_data` at width 32 with
the value `2 ^ 32` — which does not fit in 32 bits — performs two transport
writes (the masked message slot and the abstract command) and completes
without any out-of-range failure. -/
theorem write_data_no_range_check :
    ¬ (2 ^ 32 < 2 ^ 32) ∧
    (write_data_ocd 32 "DCSR" (2 ^ 32) [0]).2 = some (Except.ok ()) ∧
    (write_data_ocd 32 "DCSR" (2 ^ 32) [0]).1 =
      [(0x4, 0), (0x17, access_register_data 32 true 0x07B0)] :=
  ⟨Nat.lt_irrefl _, rfl, rfl⟩

/-- C3 (amended): only the SVF generator variant validates the value, and it
rejects — with the out-of-range error and no transport writes — exactly when
its floating-point guard `math.log2(data) > XLEN` trips on a positive value
(the guard's IEEE-double outcome is the oracle `log2gt`; in particular,
whenever the float comparison stays false — as it does at the boundary value
`2 ^ XLEN`, which needs XLEN + 1 bits, and for the small rounding range just
above it — the variant issues its transport writes with no range failure);
the live OpenOCD variant performs no validation at all: it always emits its
transport writes and never reports an out-of-range value. -/
theorem write_data_range_check_amended (log2gt : Nat → Nat → Bool)
    (XLEN data : Nat) :
    (((svf_write_data log2gt XLEN "DCSR" data).2 =
        Except.error PyErr.valueOutOfRange ∧
      (svf_write_data log2gt XLEN "DCSR" data).1 = []) ↔
      (0 < data ∧ log2gt data XLEN = true)) ∧
    (log2gt data XLEN = false →
      (svf_write_data log2gt XLEN "DCSR" data).2 = Except.ok () ∧
      (svf_write_data log2gt XLEN "DCSR" data).1 ≠ []) ∧
    ∀ (LLEN : Nat) (reg : String) (v : Nat) (statusReads : List Nat),
      (write_data_ocd LLEN reg v statusReads).2 ≠
        some (Except.error PyErr.valueOutOfRange) ∧
      (write_data_ocd LLEN reg v statusReads).1 ≠ [] := by
  have ht : translate_regno "DCSR" = Except.ok (some 0x07B0) := rfl
  refine ⟨?_, ?_, ?_⟩
  · by_cases hc : 0 < data ∧ log2gt data XLEN = true
    · simp [svf_write_data, hc]
    · simp [svf_write_data, hc, ht]
  · intro hg
    have hc : ¬ (0 < data ∧ log2gt data XLEN = true) := by simp [hg]
    simp [svf_write_data, hc, ht]
  · intro LLEN reg v sr
    unfold write_data_ocd
    rcases htr : translate_regno reg with e | oreg
    · obtain ⟨k, hk⟩ := translate_regno_error_is_keyerror reg e htr
      subst hk
      simp [write_data_msgwrites]
    · rcases oreg with _ | regno
      · simp [write_data_msgwrites]
      · rcases hch : check_abstrcmderr sr with _ | ores
        · simp [write_data_msgwrites]
        · rcases ores with _ | msg <;> simp [write_data_msgwrites]

/-- C3 witness: at the boundary value `2 ^ 64` the float guard
`math.log2(2 ** 64) > 64` is `64.0 > 64`, hence false, modelled by an oracle
returning false there: the SVF variant accepts the 65-bit value and issues
its transport writes. -/
theorem write_data_range_check_amended_witness :
    (svf_write_data (fun _ _ => false) 64 "DCSR" (2 ^ 64)).2 = Except.ok () ∧
    (svf_write_data (fun _ _ => false) 64 "DCSR" (2 ^ 64)).1 ≠ [] :=
  (write_data_range_check_amended (fun _ _ => false) 64 (2 ^ 64)).2.1 rfl

/-- C6 counterexample: with the step-enable bit already set beforehand
(DCSR = 4), `step()` performs a single DCSR write-back of 0 — the prior
stepping configuration (bit set) is not restored. -/
theorem step_not_restored :
    step_bit 4 = 1 ∧ step_dcsrWrites 4 = [0] ∧ step_bit 0 = 0 :=
  ⟨rfl, rfl, rfl⟩

/-- C6 (amended): `step()` writes the DCSR back with the step bit set only
when it was unset, issues exactly one resume DMI write, and always finishes
by writing the DCSR with the step bit cleared; the final configuration
equals the prior one exactly when stepping was previously disabled. -/
theorem step_restores_only_if_clear (d : Nat) :
    step_dcsrWrites d =
      (if step_bit d = 0 then [d ||| 0x4, d] else [andNot4 d]) ∧
    step_dmiWrites d = [(0x10, 0x40000001)] ∧
    (step_dcsrWrites d).getLast? = some (andNot4 d) ∧
    step_bit (andNot4 d) = 0 ∧
    (andNot4 d = d ↔ step_bit d = 0) := by
  have hsb := step_bit_eq d
  have ha := and4_eq d
  by_cases h : step_bit d = 0
  · have h0 : d / 4 % 2 = 0 := by omega
    have hlor : d ||| 4 = d + 4 := lor4_eq_add d h0
    have han : andNot4 d = d := by unfold andNot4; omega
    have han4 : andNot4 (d ||| 4) = d := by
      unfold andNot4
      rw [hlor]
      have h4 := and4_eq (d + 4)
      omega
    refine ⟨?_, ?_, ?_, ?_, ?_⟩
    · rw [if_pos h]
      unfold step_dcsrWrites step_ocd
      simp [h, han4]
    · unfold step_dmiWrites step_ocd
      simp [h]
    · unfold step_dcsrWrites step_ocd
      simp [h, han4, han]
    · rw [han]; exact h
    · exact ⟨fun _ => h, fun _ => han⟩
  · have h1 : d / 4 % 2 = 1 := by omega
    have hd4 : 4 ≤ d := by omega
    have han : andNot4 d = d - 4 := by unfold andNot4; omega
    refine ⟨?_, ?_, ?_, ?_, ?_⟩
    · rw [if_neg h]
      unfold step_dcsrWrites step_ocd
      simp [h]
    · unfold step_dmiWrites step_ocd
      simp [h]
    · unfold step_dcsrWrites step_ocd
      simp [h]
    · rw [step_bit_eq, han]
      omega
    · constructor
      · intro he
        rw [han] at he
        omega
      · intro he
        exact absurd he h
